import Mathlib

/-!
Shallow embedding of `src/backend/routers/announcements.py`, the announcement
management endpoints of the Mergington High School API.

Modelling conventions:
* `datetime` values are modelled as natural-number timestamps.
* A MongoDB document id is either a native `ObjectId` (represented by its
  lowercase 24-hex-character string) or a plain string (`BsonId`).
* A stored document is schemaless: every field other than `_id` is an
  `Option`, `none` standing for a missing or null field, which is how an
  update that sets a field to null leaves the record.
* Pydantic validation at the request/response boundary is an `Except`:
  `parseCreate` embeds the `AnnouncementCreate` model, `parseAnnouncement`
  the `Announcement` response model.
* Each write endpoint returns the response (`Except ApiError _`) together
  with the collection after the call, so that state-change claims are
  directly expressible.
-/

namespace Announcements

/-- A BSON `_id` value: a native `ObjectId` (kept as its lowercase hex
string) or a plain string id. -/
inductive BsonId where
  | objectId (hex : String)
  | strId (s : String)
deriving DecidableEq

/-- Hex-digit test used by `bson.ObjectId.is_valid` on strings. -/
def isHexChar (c : Char) : Bool :=
  c.isDigit || (('a' ≤ c) && (c ≤ 'f')) || (('A' ≤ c) && (c ≤ 'F'))

/-- `ObjectId.is_valid` for strings: exactly 24 hexadecimal characters. -/
def objectIdIsValid (s : String) : Bool :=
  s.length == 24 && s.data.all isHexChar

/-- `str(oid)` / storing an ObjectId: its lowercase hex string. -/
def idToString : BsonId → String
  | .objectId hex => hex
  | .strId s => s

/-- A document of the `announcements` collection. Fields other than `_id`
may be absent or null (`none`). -/
structure AnnouncementDoc where
  _id : BsonId
  title : Option String
  message : Option String
  created_at : Option Nat
  start_date : Option Nat
  expiration_date : Option Nat
  author : Option String
deriving DecidableEq

/-- The `announcements_collection` together with the id-generation state of
the Mongo client (fresh ObjectIds are drawn from `counter`). -/
structure Collection where
  docs : List AnnouncementDoc
  counter : Nat
deriving DecidableEq

/-- The hex string of the ObjectId generated for the n-th insertion. -/
def genOid (n : Nat) : String :=
  let ds := Nat.toDigits 16 n
  String.mk (List.replicate (24 - ds.length) '0' ++ ds)

/-- The pydantic `Announcement` response model (file lines 15-22):
`id: Optional[str]` aliased to `_id`, `title/message/author: str`,
`created_at/expiration_date: datetime`, `start_date: Optional[datetime]`. -/
structure Announcement where
  id : Option String
  title : String
  message : String
  created_at : Nat
  start_date : Option Nat
  expiration_date : Nat
  author : String
deriving DecidableEq

/-- The pydantic `AnnouncementCreate` model (lines 24-28): `title` and
`message` required with `min_length=1`, `expiration_date` required. -/
structure AnnouncementCreate where
  title : String
  message : String
  start_date : Option Nat
  expiration_date : Nat
deriving DecidableEq

/-- A raw JSON body posted to the create endpoint. Besides the declared
model fields the client may also send `author`, `created_at` and `_id`;
pydantic ignores such extra keys when parsing `AnnouncementCreate`. -/
structure CreateBody where
  title : Option String
  message : Option String
  start_date : Option Nat
  expiration_date : Option Nat
  author : Option String
  created_at : Option Nat
  _id : Option String
deriving DecidableEq

/-- Pydantic validation of `AnnouncementCreate` against a raw body:
`title`/`message` must be present with at least 1 character,
`expiration_date` must be present; extra keys are ignored. -/
def parseCreate (b : CreateBody) : Except String AnnouncementCreate :=
  match b.title with
  | none => .error "title: field required"
  | some t =>
    if t.length < 1 then .error "title: ensure this value has at least 1 characters"
    else
      match b.message with
      | none => .error "message: field required"
      | some m =>
        if m.length < 1 then .error "message: ensure this value has at least 1 characters"
        else
          match b.expiration_date with
          | none => .error "expiration_date: field required"
          | some e =>
            .ok { title := t, message := m, start_date := b.start_date, expiration_date := e }

/-- The pydantic `AnnouncementUpdate` model (lines 30-34) with pydantic's
was-set marker: the outer `Option` is `exclude_unset` information (was the
field supplied at all), the inner `Option` the supplied value, which may be
an explicit null. No `min_length` constraint appears on this model. -/
structure AnnouncementUpdate where
  title : Option (Option String)
  message : Option (Option String)
  start_date : Option (Option Nat)
  expiration_date : Option (Option Nat)
deriving DecidableEq

/-- `not update_fields` after `data.dict(exclude_unset=True)` (line 70-71):
true when no field at all was supplied in the request body. -/
def updateFieldsEmpty (u : AnnouncementUpdate) : Bool :=
  u.title.isNone && u.message.isNone && u.start_date.isNone && u.expiration_date.isNone

/-- Mongo `$set` with the supplied fields (line 77): a supplied field is
overwritten with the supplied value (possibly null), an unsupplied field is
left as it is; `_id`, `created_at` and `author` are never in the set. -/
def applySet (u : AnnouncementUpdate) (d : AnnouncementDoc) : AnnouncementDoc :=
  { d with
    title := u.title.getD d.title,
    message := u.message.getD d.message,
    start_date := u.start_date.getD d.start_date,
    expiration_date := u.expiration_date.getD d.expiration_date }

/-- The Mongo query `{"expiration_date": {"$gt": now}}` (line 40): matches
only documents whose `expiration_date` is present and strictly greater than
`now` (a missing or null field never satisfies `$gt`). -/
def queryExpGt (now : Nat) (d : AnnouncementDoc) : Bool :=
  match d.expiration_date with
  | some e => decide (now < e)
  | none => false

/-- Lines 47-48 and 82-83: `if isinstance(doc["_id"], ObjectId):
doc["_id"] = str(doc["_id"])`. -/
def stringifyDocId (d : AnnouncementDoc) : AnnouncementDoc :=
  match d._id with
  | .objectId hex => { d with _id := .strId hex }
  | .strId _ => d

/-- Pydantic validation of the `Announcement` response model against a
document: `_id` must be a string value (a raw ObjectId is not a `str`),
`title`, `message`, `author`, `created_at` and `expiration_date` must be
present and non-null; `start_date` is optional. -/
def parseAnnouncement (d : AnnouncementDoc) : Except String Announcement :=
  match d._id, d.title, d.message, d.created_at, d.expiration_date, d.author with
  | .strId i, some t, some m, some ca, some e, some au =>
    .ok { id := some i, title := t, message := m, created_at := ca,
          start_date := d.start_date, expiration_date := e, author := au }
  | _, _, _, _, _, _ => .error "value is not a valid Announcement"

/-- Errors surfaced by the endpoints: pydantic request-validation errors
(HTTP 422/400 class), explicit `HTTPException`s, and response-model
failures (HTTP 500 class). -/
inductive ApiError where
  | validationError (detail : String)
  | httpException (status : Nat) (detail : String)
  | internalError (detail : String)
deriving DecidableEq

/-- Line 74 and line 89: `ObjectId(announcement_id) if
ObjectId.is_valid(announcement_id) else announcement_id`. Constructing an
`ObjectId` normalizes the hex string to lowercase. -/
def normalizeId (s : String) : BsonId :=
  if objectIdIsValid s then .objectId s.toLower else .strId s

/-- The result loop of `list_announcements` (lines 45-49): for each
document, stringify an ObjectId `_id` and validate against the response
model, collecting the results in order; the first invalid document raises. -/
def renderDocs : List AnnouncementDoc → Except String (List Announcement)
  | [] => .ok []
  | d :: rest =>
    match parseAnnouncement (stringifyDocId d) with
    | .error e => .error e
    | .ok a =>
      match renderDocs rest with
      | .error e => .error e
      | .ok l => .ok (a :: l)

/-- `GET /announcements` (lines 37-50): filter by the expiration query when
`active_only`, then render every returned document. -/
def list_announcements (c : Collection) (now : Nat) (active_only : Bool) :
    Except String (List Announcement) :=
  let docs := if active_only then c.docs.filter (queryExpGt now) else c.docs
  renderDocs docs

/-- The endpoint's Python default `active_only: bool = True` (line 38). -/
def list_announcements_default (c : Collection) (now : Nat) :
    Except String (List Announcement) :=
  list_announcements c now true

/-- `POST /announcements` (lines 53-65): validate the body, build the
document with `created_at = now` and `author = user["username"]`, insert it
with a fresh ObjectId, stringify the inserted id, and return the document
through the response model. -/
def add_announcement (c : Collection) (now : Nat) (username : String)
    (body : CreateBody) : Except ApiError Announcement × Collection :=
  match parseCreate body with
  | .error e => (.error (.validationError e), c)
  | .ok data =>
    let inserted_id : BsonId := .objectId (genOid c.counter)
    let doc : AnnouncementDoc :=
      { _id := inserted_id, title := some data.title, message := some data.message,
        created_at := some now, start_date := data.start_date,
        expiration_date := some data.expiration_date, author := some username }
    let c' : Collection := { docs := c.docs ++ [doc], counter := c.counter + 1 }
    let doc2 : AnnouncementDoc := { doc with _id := .strId (idToString inserted_id) }
    match parseAnnouncement doc2 with
    | .ok a => (.ok a, c')
    | .error e => (.error (.internalError e), c')

/-- `find_one_and_update` on the document list: update the first document
whose `_id` equals the query id with `$set`, returning the pre- or
post-update document according to `returnAfter` (pymongo's
`ReturnDocument.BEFORE = False`, `ReturnDocument.AFTER = True`). -/
def findOneAndUpdate (qid : BsonId) (u : AnnouncementUpdate) (returnAfter : Bool) :
    List AnnouncementDoc → Option AnnouncementDoc × List AnnouncementDoc
  | [] => (none, [])
  | d :: rest =>
    if d._id = qid then
      (some (if returnAfter then applySet u d else d), applySet u d :: rest)
    else
      let p := findOneAndUpdate qid u returnAfter rest
      (p.1, d :: p.2)

/-- `PUT /announcements/{announcement_id}` (lines 68-84): 400 when no field
was supplied, normalize the id, atomically find-and-update with
`return_document=True` (i.e. `ReturnDocument.AFTER`), 404 when nothing
matched, else stringify the id and return through the response model. -/
def update_announcement (c : Collection) (announcement_id : String)
    (data : AnnouncementUpdate) : Except ApiError Announcement × Collection :=
  if updateFieldsEmpty data then
    (.error (.httpException 400 "No fields to update."), c)
  else
    let query := normalizeId announcement_id
    let p := findOneAndUpdate query data true c.docs
    let c' : Collection := { c with docs := p.2 }
    match p.1 with
    | none => (.error (.httpException 404 "Announcement not found."), c')
    | some result =>
      match parseAnnouncement (stringifyDocId result) with
      | .ok a => (.ok a, c')
      | .error e => (.error (.internalError e), c')

/-- `delete_one`: remove the first document whose `_id` equals the query
id, reporting the deleted count (0 or 1). -/
def deleteOne (qid : BsonId) :
    List AnnouncementDoc → Nat × List AnnouncementDoc
  | [] => (0, [])
  | d :: rest =>
    if d._id = qid then (1, rest)
    else
      let p := deleteOne qid rest
      (p.1, d :: p.2)

/-- `DELETE /announcements/{announcement_id}` (lines 87-93): normalize the
id, delete one matching document, 404 when the deleted count is 0, else
return `success = true`. -/
def delete_announcement (c : Collection) (announcement_id : String) :
    Except ApiError Bool × Collection :=
  let query := normalizeId announcement_id
  let p := deleteOne query c.docs
  let c' : Collection := { c with docs := p.2 }
  if p.1 == 0 then (.error (.httpException 404 "Announcement not found."), c')
  else (.ok true, c')

/-- Success test for an `Except` value. -/
def exceptIsOk {ε α : Type} : Except ε α → Bool
  | .ok _ => true
  | .error _ => false

deriving instance DecidableEq for Except

/-! Concrete fixtures used to exercise the endpoints. -/

/-- A well-formed stored announcement with a plain string id. -/
def exDoc : AnnouncementDoc :=
  { _id := .strId "a1", title := some "Exam week", message := some "Finals start Monday",
    created_at := some 100, start_date := none, expiration_date := some 500,
    author := some "alice" }

/-- A well-formed stored announcement with a native ObjectId, already expired
at time 500. -/
def exDoc2 : AnnouncementDoc :=
  { _id := .objectId "00000000000000000000002a", title := some "Old news",
    message := some "Yesterday", created_at := some 10, start_date := some 20,
    expiration_date := some 200, author := some "bob" }

/-- A two-document collection. -/
def exColl : Collection := { docs := [exDoc, exDoc2], counter := 7 }

/-- A well-formed announcement whose stored id is the string form of a
valid ObjectId. -/
def strOidDoc : AnnouncementDoc :=
  { exDoc with _id := .strId "0123456789abcdef01234567" }

/-- A collection holding only `strOidDoc`. -/
def strOidColl : Collection := { docs := [strOidDoc], counter := 0 }

/-- An update body supplying only a new title. -/
def titleOnlyUpd : AnnouncementUpdate :=
  { title := some (some "Updated"), message := none, start_date := none,
    expiration_date := none }

/-- An update body supplying an empty title. -/
def emptyTitleUpd : AnnouncementUpdate :=
  { title := some (some ""), message := none, start_date := none,
    expiration_date := none }

/-- An update body explicitly nulling `expiration_date`. -/
def nullExpirationUpd : AnnouncementUpdate :=
  { title := none, message := none, start_date := none,
    expiration_date := some none }

/-- An update body supplying no field at all. -/
def noFieldsUpd : AnnouncementUpdate :=
  { title := none, message := none, start_date := none, expiration_date := none }

/-- A valid create body that also smuggles in `author`, `created_at` and
`_id` values. -/
def exBody : CreateBody :=
  { title := some "Exam week", message := some "Finals start Monday", start_date := none,
    expiration_date := some 700, author := some "mallory", created_at := some 3,
    _id := some "evil" }

/-- The document inserted by the create fixture `exBody` at time 5 by
user alice on `exColl`. -/
def createdDoc : AnnouncementDoc :=
  { _id := .objectId "000000000000000000000007", title := some "Exam week",
    message := some "Finals start Monday", created_at := some 5,
    start_date := none, expiration_date := some 700, author := some "alice" }

/-- The announcement returned by that create call. -/
def createdA : Announcement :=
  { id := some "000000000000000000000007", title := "Exam week",
    message := "Finals start Monday", created_at := 5, start_date := none,
    expiration_date := 700, author := "alice" }

/-- The collection after that create call. -/
def createdColl : Collection := { docs := exColl.docs ++ [createdDoc], counter := 8 }

/-! Helper lemmas about the embedded operations. -/

/-- Rendering a list of documents that all pass the response model yields
`ok` with the parses in order. -/
theorem renderDocs_forall2 :
    ∀ ds : List AnnouncementDoc,
      (∀ d ∈ ds, exceptIsOk (parseAnnouncement (stringifyDocId d)) = true) →
      ∃ l, renderDocs ds = .ok l ∧
        List.Forall₂ (fun d a => parseAnnouncement (stringifyDocId d) = .ok a) ds l := by
  intro ds
  induction ds with
  | nil => exact fun _ => ⟨[], rfl, List.Forall₂.nil⟩
  | cons d rest ih =>
    intro h
    have hd := h d (List.mem_cons_self d rest)
    obtain ⟨l, hl, hf⟩ := ih (fun x hx => h x (List.mem_cons_of_mem d hx))
    match hg : parseAnnouncement (stringifyDocId d) with
    | .error e => rw [hg] at hd; simp [exceptIsOk] at hd
    | .ok a =>
      refine ⟨a :: l, ?_, List.Forall₂.cons hg hf⟩
      simp [renderDocs, hg, hl]

/-- `find_one_and_update` is a miss exactly on a collection holding no
document with the queried id, and then leaves the documents unchanged. -/
theorem findOneAndUpdate_no_match (qid : BsonId) (u : AnnouncementUpdate) (ra : Bool) :
    ∀ ds : List AnnouncementDoc, (∀ d ∈ ds, d._id ≠ qid) →
      findOneAndUpdate qid u ra ds = (none, ds) := by
  intro ds
  induction ds with
  | nil => exact fun _ => rfl
  | cons d rest ih =>
    intro h
    have hd : ¬ d._id = qid := h d (List.mem_cons_self d rest)
    have hr := ih (fun x hx => h x (List.mem_cons_of_mem d hx))
    simp [findOneAndUpdate, hd, hr]

/-- A successful `find_one_and_update` splits the collection around the
first matching document, which is the only one rewritten by `$set`. -/
theorem findOneAndUpdate_some (qid : BsonId) (u : AnnouncementUpdate) (ra : Bool) :
    ∀ (ds ds' : List AnnouncementDoc) (r : AnnouncementDoc),
      findOneAndUpdate qid u ra ds = (some r, ds') →
      ∃ l1 d l2, ds = l1 ++ d :: l2 ∧ d._id = qid ∧
        ds' = l1 ++ applySet u d :: l2 ∧ r = (if ra then applySet u d else d) := by
  intro ds
  induction ds with
  | nil => intro ds' r h; simp [findOneAndUpdate] at h
  | cons d rest ih =>
    intro ds' r h
    by_cases hd : d._id = qid
    · simp [findOneAndUpdate, hd] at h
      exact ⟨[], d, rest, rfl, hd, by simp [h.2.symm], by simp [h.1]⟩
    · rcases hrec : findOneAndUpdate qid u ra rest with ⟨r0, rest'⟩
      simp [findOneAndUpdate, hd, hrec] at h
      obtain ⟨l1, d1, l2, hds, hid, hds', hr⟩ := ih rest' r (by rw [hrec, h.1])
      exact ⟨d :: l1, d1, l2, by simp [hds], hid, by simp [← h.2, hds'], hr⟩

/-- `find_one_and_update` hits whenever some document carries the queried
id. -/
theorem findOneAndUpdate_found (qid : BsonId) (u : AnnouncementUpdate) (ra : Bool) :
    ∀ (ds : List AnnouncementDoc) (x : AnnouncementDoc), x ∈ ds → x._id = qid →
      (findOneAndUpdate qid u ra ds).1.isSome = true := by
  intro ds
  induction ds with
  | nil => intro x hx; simp at hx
  | cons d rest ih =>
    intro x hx hqid
    by_cases hd : d._id = qid
    · simp [findOneAndUpdate, hd]
    · rcases List.mem_cons.mp hx with h1 | h1
      · subst h1; exact absurd hqid hd
      · simp [findOneAndUpdate, hd]
        exact ih x h1 hqid

/-- `delete_one` deletes nothing from a collection holding no document with
the queried id. -/
theorem deleteOne_no_match (qid : BsonId) :
    ∀ ds : List AnnouncementDoc, (∀ d ∈ ds, d._id ≠ qid) →
      deleteOne qid ds = (0, ds) := by
  intro ds
  induction ds with
  | nil => exact fun _ => rfl
  | cons d rest ih =>
    intro h
    have hd : ¬ d._id = qid := h d (List.mem_cons_self d rest)
    have hr := ih (fun x hx => h x (List.mem_cons_of_mem d hx))
    simp [deleteOne, hd, hr]

/-- `delete_one` reports one deletion whenever some document carries the
queried id. -/
theorem deleteOne_found (qid : BsonId) :
    ∀ (ds : List AnnouncementDoc) (x : AnnouncementDoc), x ∈ ds → x._id = qid →
      (deleteOne qid ds).1 = 1 := by
  intro ds
  induction ds with
  | nil => intro x hx; simp at hx
  | cons d rest ih =>
    intro x hx hqid
    by_cases hd : d._id = qid
    · simp [deleteOne, hd]
    · rcases List.mem_cons.mp hx with h1 | h1
      · subst h1; exact absurd hqid hd
      · simp [deleteOne, hd]
        exact ih x h1 hqid

/-- Inversion of a successful response-model validation: every field of the
produced `Announcement` is the corresponding document field. -/
theorem parseAnnouncement_ok_fields (d : AnnouncementDoc) (a : Announcement)
    (h : parseAnnouncement d = .ok a) :
    d._id = .strId ((a.id).getD "") ∧ a.id = some ((a.id).getD "") ∧
    d.title = some a.title ∧ d.message = some a.message ∧
    d.created_at = some a.created_at ∧ d.start_date = a.start_date ∧
    d.expiration_date = some a.expiration_date ∧ d.author = some a.author := by
  rcases d with ⟨i, t, m, ca, sd, e, au⟩
  cases i <;> cases t <;> cases m <;> cases ca <;> cases e <;> cases au <;>
    simp [parseAnnouncement] at h
  subst h
  simp

/-- After stringification the `_id` is the string form of the original id. -/
theorem stringifyDocId_id (d : AnnouncementDoc) :
    (stringifyDocId d)._id = .strId (idToString d._id) := by
  rcases d with ⟨i, t, m, ca, sd, e, au⟩
  cases i <;> rfl

/-! Claim theorems and their witnesses. -/

/-- Claim C4: update with an empty set of supplied fields fails with the
400 ValidationError and leaves the store unchanged, for every id and store
state. -/
theorem update_empty_body_rejected (c : Collection) (s : String)
    (u : AnnouncementUpdate) (h : updateFieldsEmpty u = true) :
    update_announcement c s u
      = (.error (.httpException 400 "No fields to update."), c) := by
  simp [update_announcement, h]

/-- Witness for C4 at a concrete store, id and empty body. -/
theorem update_empty_body_rejected_witness :
    updateFieldsEmpty noFieldsUpd = true ∧
      update_announcement exColl "a1" noFieldsUpd
        = (.error (.httpException 400 "No fields to update."), exColl) :=
  ⟨rfl, update_empty_body_rejected exColl "a1" noFieldsUpd rfl⟩

/-- Claim C6 (code evidence): an update may store an empty title, and may
null out expiration_date, so the claimed invariant is not preserved. -/
theorem update_accepts_empty_title :
    (update_announcement exColl "a1" emptyTitleUpd).2.docs
        = [{ exDoc with title := some "" }, exDoc2]
    ∧ (update_announcement exColl "a1" emptyTitleUpd).1
        = .ok { id := some "a1", title := "", message := "Finals start Monday",
                created_at := 100, start_date := none, expiration_date := 500,
                author := "alice" }
    ∧ (update_announcement exColl "a1" nullExpirationUpd).2.docs
        = [{ exDoc with expiration_date := none }, exDoc2] := by
  refine ⟨by decide, by decide, by decide⟩

/-- Claim C2 (counterexample): an id supplied as a string does not match a
record whose stored id is the string form of a valid ObjectId, because the
lookup then uses only the native interpretation. -/
theorem id_lookup_misses_string_stored_oid :
    objectIdIsValid "0123456789abcdef01234567" = true
    ∧ strOidColl.docs = [strOidDoc]
    ∧ strOidDoc._id = .strId "0123456789abcdef01234567"
    ∧ delete_announcement strOidColl "0123456789abcdef01234567"
        = (.error (.httpException 404 "Announcement not found."), strOidColl)
    ∧ update_announcement strOidColl "0123456789abcdef01234567" titleOnlyUpd
        = (.error (.httpException 404 "Announcement not found."), strOidColl) := by
  exact ⟨by decide, rfl, rfl, by decide, by decide⟩

/-- Claim C2 (amended): update and delete match exactly the records whose
stored id equals the normalized id, which is the native interpretation when
the string is a valid ObjectId string and the literal string otherwise. -/
theorem lookup_matches_normalized_id_only (c : Collection) (s : String)
    (u : AnnouncementUpdate) (hu : updateFieldsEmpty u = false) :
    ((∀ d ∈ c.docs, d._id ≠ normalizeId s) ↔
      (update_announcement c s u).1
        = .error (.httpException 404 "Announcement not found."))
    ∧ ((∀ d ∈ c.docs, d._id ≠ normalizeId s) ↔
      (delete_announcement c s).1
        = .error (.httpException 404 "Announcement not found."))
    ∧ (objectIdIsValid s = true → normalizeId s = .objectId (s.toLower))
    ∧ (objectIdIsValid s = false → normalizeId s = .strId s) := by
  refine ⟨⟨?_, ?_⟩, ⟨?_, ?_⟩, ?_, ?_⟩
  · intro h
    simp [update_announcement, hu,
      findOneAndUpdate_no_match (normalizeId s) u true c.docs h]
  · intro h404 d hd hid
    have hsome := findOneAndUpdate_found (normalizeId s) u true c.docs d hd hid
    rcases hp : findOneAndUpdate (normalizeId s) u true c.docs with ⟨p1, p2⟩
    rw [hp] at hsome
    cases p1 with
    | none => simp at hsome
    | some r =>
      cases hparse : parseAnnouncement (stringifyDocId r) with
      | ok a => simp [update_announcement, hu, hp, hparse] at h404
      | error e => simp [update_announcement, hu, hp, hparse] at h404
  · intro h
    simp [delete_announcement, deleteOne_no_match (normalizeId s) c.docs h]
  · intro h404 d hd hid
    have hcount := deleteOne_found (normalizeId s) c.docs d hd hid
    rcases hp : deleteOne (normalizeId s) c.docs with ⟨n, ds'⟩
    rw [hp] at hcount
    subst hcount
    simp [delete_announcement, hp] at h404
  · intro h; simp [normalizeId, h]
  · intro h; simp [normalizeId, h]

/-- Witness for the amended C2 at a concrete store and ids of both kinds. -/
theorem lookup_matches_normalized_id_only_witness :
    updateFieldsEmpty titleOnlyUpd = false
    ∧ ((∀ d ∈ exColl.docs, d._id ≠ normalizeId "a1") ↔
        (update_announcement exColl "a1" titleOnlyUpd).1
          = .error (.httpException 404 "Announcement not found.")) := by
  exact ⟨rfl, (lookup_matches_normalized_id_only exColl "a1" titleOnlyUpd rfl).1⟩

/-- Claim C5: when no stored record matches the normalized id, update and
delete both fail with the 404 NotFoundError and leave the store unchanged
(provided the update body is non-empty, since an empty body is rejected
with 400 before any lookup). -/
theorem missing_id_not_found (c : Collection) (s : String) (u : AnnouncementUpdate)
    (hu : updateFieldsEmpty u = false)
    (h : ∀ d ∈ c.docs, d._id ≠ normalizeId s) :
    update_announcement c s u
        = (.error (.httpException 404 "Announcement not found."), c)
    ∧ delete_announcement c s
        = (.error (.httpException 404 "Announcement not found."), c) := by
  constructor
  · simp [update_announcement, hu,
      findOneAndUpdate_no_match (normalizeId s) u true c.docs h]
  · simp [delete_announcement, deleteOne_no_match (normalizeId s) c.docs h]

/-- Witness for C5 at a concrete store and an id matching nothing. -/
theorem missing_id_not_found_witness :
    updateFieldsEmpty titleOnlyUpd = false
    ∧ (∀ d ∈ exColl.docs, d._id ≠ normalizeId "nope")
    ∧ update_announcement exColl "nope" titleOnlyUpd
        = (.error (.httpException 404 "Announcement not found."), exColl)
    ∧ delete_announcement exColl "nope"
        = (.error (.httpException 404 "Announcement not found."), exColl) := by
  have h := missing_id_not_found exColl "nope" titleOnlyUpd rfl (by decide)
  exact ⟨rfl, by decide, h.1, h.2⟩

theorem length_lt_one_iff (s : String) : (s.length < 1) ↔ s = "" := by
  rcases s with ⟨l⟩
  cases l with
  | nil => simp [String.length]
  | cons c cs =>
    refine ⟨fun hlen => absurd hlen (by simp [String.length]),
      fun hh => absurd (congrArg String.data hh) (by simp)⟩

theorem update_ok_inversion (c : Collection) (s : String) (u : AnnouncementUpdate)
    (a : Announcement) (c' : Collection)
    (h : update_announcement c s u = (.ok a, c')) :
    ∃ l1 d l2, c.docs = l1 ++ d :: l2 ∧ d._id = normalizeId s ∧
      c'.docs = l1 ++ applySet u d :: l2 ∧ c'.counter = c.counter ∧
      parseAnnouncement (stringifyDocId (applySet u d)) = .ok a := by
  have hu : updateFieldsEmpty u = false := by
    cases hq : updateFieldsEmpty u
    · rfl
    · simp [update_announcement, hq] at h
  rcases hp : findOneAndUpdate (normalizeId s) u true c.docs with ⟨p1, p2⟩
  cases p1 with
  | none => simp [update_announcement, hu, hp] at h
  | some r =>
    cases hparse : parseAnnouncement (stringifyDocId r) with
    | error e => simp [update_announcement, hu, hp, hparse] at h
    | ok a0 =>
      simp [update_announcement, hu, hp, hparse] at h
      obtain ⟨l1, d, l2, hds, hid, hds', hr⟩ :=
        findOneAndUpdate_some (normalizeId s) u true c.docs p2 r hp
      simp at hr
      refine ⟨l1, d, l2, hds, hid, ?_, ?_, ?_⟩
      · rw [← h.2]; exact hds'
      · rw [← h.2]
      · rw [← hr, hparse, h.1]

theorem renderDocs_ok_forall2 :
    ∀ (ds : List AnnouncementDoc) (l : List Announcement), renderDocs ds = .ok l →
      List.Forall₂ (fun d a => parseAnnouncement (stringifyDocId d) = .ok a) ds l := by
  intro ds
  induction ds with
  | nil =>
    intro l h
    simp [renderDocs] at h
    rw [h]
    exact List.Forall₂.nil
  | cons d rest ih =>
    intro l h
    cases hg : parseAnnouncement (stringifyDocId d) with
    | error e => simp [renderDocs, hg] at h
    | ok a =>
      cases hr : renderDocs rest with
      | error e => simp [renderDocs, hg, hr] at h
      | ok l0 =>
        simp [renderDocs, hg, hr] at h
        rw [← h]
        exact List.Forall₂.cons hg (ih l0 hr)

theorem parse_stringify_id (d : AnnouncementDoc) (a : Announcement)
    (h : parseAnnouncement (stringifyDocId d) = .ok a) :
    a.id = some (idToString d._id) := by
  obtain ⟨h1, h2, _⟩ := parseAnnouncement_ok_fields _ _ h
  rw [stringifyDocId_id] at h1
  injection h1 with h1
  rw [h2, ← h1]

/-- Claim C7: a successful update rewrites exactly the first matching
record with the supplied fields; omitted fields, the server-owned fields
`_id`, `created_at` and `author`, and every other stored record are left
untouched. -/
theorem update_frame (c : Collection) (s : String) (u : AnnouncementUpdate)
    (a : Announcement) (c' : Collection)
    (h : update_announcement c s u = (.ok a, c')) :
    ∃ l1 d l2, c.docs = l1 ++ d :: l2 ∧
      c'.docs = l1 ++ applySet u d :: l2 ∧
      c'.counter = c.counter ∧
      (applySet u d)._id = d._id ∧
      (applySet u d).created_at = d.created_at ∧
      (applySet u d).author = d.author ∧
      (u.title = none → (applySet u d).title = d.title) ∧
      (u.message = none → (applySet u d).message = d.message) ∧
      (u.start_date = none → (applySet u d).start_date = d.start_date) ∧
      (u.expiration_date = none →
        (applySet u d).expiration_date = d.expiration_date) := by
  obtain ⟨l1, d, l2, hds, hid, hds', hcnt, hparse⟩ := update_ok_inversion c s u a c' h
  refine ⟨l1, d, l2, hds, hds', hcnt, rfl, rfl, rfl, ?_, ?_, ?_, ?_⟩
  · intro hn; simp [applySet, hn]
  · intro hn; simp [applySet, hn]
  · intro hn; simp [applySet, hn]
  · intro hn; simp [applySet, hn]

/-- Witness for C7 at a concrete title-only update. -/
theorem update_frame_witness :
    ∃ l1 d l2, exColl.docs = l1 ++ d :: l2 ∧
      ({ docs := [{ exDoc with title := some "Updated" }, exDoc2],
         counter := 7 } : Collection).docs = l1 ++ applySet titleOnlyUpd d :: l2 ∧
      ({ docs := [{ exDoc with title := some "Updated" }, exDoc2],
         counter := 7 } : Collection).counter = exColl.counter ∧
      (applySet titleOnlyUpd d)._id = d._id ∧
      (applySet titleOnlyUpd d).created_at = d.created_at ∧
      (applySet titleOnlyUpd d).author = d.author ∧
      (titleOnlyUpd.title = none → (applySet titleOnlyUpd d).title = d.title) ∧
      (titleOnlyUpd.message = none →
        (applySet titleOnlyUpd d).message = d.message) ∧
      (titleOnlyUpd.start_date = none →
        (applySet titleOnlyUpd d).start_date = d.start_date) ∧
      (titleOnlyUpd.expiration_date = none →
        (applySet titleOnlyUpd d).expiration_date = d.expiration_date) :=
  update_frame exColl "a1" titleOnlyUpd
    { id := some "a1", title := "Updated", message := "Finals start Monday",
      created_at := 100, start_date := none, expiration_date := 500,
      author := "alice" }
    { docs := [{ exDoc with title := some "Updated" }, exDoc2], counter := 7 }
    (by decide)

/-- Claim C10: a successful update returns exactly the post-update stored
document, rendered through the response model. -/
theorem update_returns_post_update_document (c : Collection) (s : String)
    (u : AnnouncementUpdate) (a : Announcement) (c' : Collection)
    (h : update_announcement c s u = (.ok a, c')) :
    ∃ l1 d l2, c.docs = l1 ++ d :: l2 ∧
      c'.docs = l1 ++ applySet u d :: l2 ∧
      parseAnnouncement (stringifyDocId (applySet u d)) = .ok a := by
  obtain ⟨l1, d, l2, hds, hid, hds', hcnt, hparse⟩ := update_ok_inversion c s u a c' h
  exact ⟨l1, d, l2, hds, hds', hparse⟩

/-- Witness for C10 at a concrete title-only update. -/
theorem update_returns_post_update_document_witness :
    ∃ l1 d l2, exColl.docs = l1 ++ d :: l2 ∧
      ({ docs := [{ exDoc with title := some "Updated" }, exDoc2],
         counter := 7 } : Collection).docs = l1 ++ applySet titleOnlyUpd d :: l2 ∧
      parseAnnouncement (stringifyDocId (applySet titleOnlyUpd d))
        = .ok { id := some "a1", title := "Updated",
                message := "Finals start Monday", created_at := 100,
                start_date := none, expiration_date := 500, author := "alice" } :=
  update_returns_post_update_document exColl "a1" titleOnlyUpd
    { id := some "a1", title := "Updated", message := "Finals start Monday",
      created_at := 100, start_date := none, expiration_date := 500,
      author := "alice" }
    { docs := [{ exDoc with title := some "Updated" }, exDoc2], counter := 7 }
    (by decide)

/-- Claim C3: a successful create returns author = identity username and
created_at = call time, stores the same values, and its outcome is
unchanged by any client-supplied author, created_at or id. -/
theorem create_assigns_server_fields (c : Collection) (now : Nat)
    (username : String) (body : CreateBody) (a : Announcement) (c' : Collection)
    (h : add_announcement c now username body = (.ok a, c')) :
    a.author = username ∧ a.created_at = now ∧ a.id = some (genOid c.counter)
    ∧ (∃ doc, c'.docs = c.docs ++ [doc] ∧ doc.author = some username
        ∧ doc.created_at = some now ∧ doc._id = .objectId (genOid c.counter))
    ∧ (∀ pa pc pid, add_announcement c now username
        { body with author := pa, created_at := pc, _id := pid }
        = add_announcement c now username body) := by
  cases hv : parseCreate body with
  | error e => simp [add_announcement, hv] at h
  | ok data =>
    simp [add_announcement, hv, parseAnnouncement, idToString] at h
    refine ⟨?_, ?_, ?_, ?_, ?_⟩
    · rw [← h.1]
    · rw [← h.1]
    · rw [← h.1]
    · refine ⟨{ _id := .objectId (genOid c.counter), title := some data.title,
                message := some data.message, created_at := some now,
                start_date := data.start_date,
                expiration_date := some data.expiration_date,
                author := some username }, ?_, rfl, rfl, rfl⟩
      rw [← h.2]
    · intro pa pc pid; rfl

/-- Witness for C3 at a concrete create call whose body smuggles in
author, created_at and id values. -/
theorem create_assigns_server_fields_witness :
    createdA.author = "alice" ∧ createdA.created_at = 5
      ∧ createdA.id = some (genOid exColl.counter)
      ∧ (∃ doc, createdColl.docs = exColl.docs ++ [doc]
          ∧ doc.author = some "alice" ∧ doc.created_at = some 5
          ∧ doc._id = .objectId (genOid exColl.counter)) := by
  have h := create_assigns_server_fields exColl 5 "alice" exBody createdA createdColl
    (by decide)
  exact ⟨h.1, h.2.1, h.2.2.1, h.2.2.2.1⟩

/-- Claim C8: create fails with a ValidationError exactly when title is
missing or empty, message is missing or empty, or expiration_date is
missing, and otherwise persists one new record. -/
theorem create_validates_required_fields (c : Collection) (now : Nat)
    (username : String) (body : CreateBody) :
    ((body.title = none ∨ body.title = some "" ∨ body.message = none
        ∨ body.message = some "" ∨ body.expiration_date = none) →
      ∃ e, add_announcement c now username body = (.error (.validationError e), c))
    ∧ ((body.title ≠ none ∧ body.title ≠ some "" ∧ body.message ≠ none
        ∧ body.message ≠ some "" ∧ body.expiration_date ≠ none) →
      ∃ a doc, add_announcement c now username body
          = (.ok a, { docs := c.docs ++ [doc], counter := c.counter + 1 })) := by
  rcases body with ⟨t, m, sd, ed, au0, ca0, i0⟩
  constructor
  · intro hbad
    cases t with
    | none => exact ⟨"title: field required", by simp [add_announcement, parseCreate]⟩
    | some tv =>
      by_cases ht : tv.length < 1
      · exact ⟨"title: ensure this value has at least 1 characters",
          by simp [add_announcement, parseCreate, ht]⟩
      · cases m with
        | none => exact ⟨"message: field required",
            by simp [add_announcement, parseCreate, ht]⟩
        | some mv =>
          by_cases hm : mv.length < 1
          · exact ⟨"message: ensure this value has at least 1 characters",
              by simp [add_announcement, parseCreate, ht, hm]⟩
          · cases ed with
            | none => exact ⟨"expiration_date: field required",
                by simp [add_announcement, parseCreate, ht, hm]⟩
            | some ev =>
              exfalso
              rw [length_lt_one_iff] at ht hm
              rcases hbad with hb | hb | hb | hb | hb <;> simp_all
  · intro hgood
    obtain ⟨h1, h2, h3, h4, h5⟩ := hgood
    rcases t with _ | tv
    · exact absurd rfl h1
    rcases m with _ | mv
    · exact absurd rfl h3
    rcases ed with _ | ev
    · exact absurd rfl h5
    have ht : ¬ tv.length < 1 := by
      rw [length_lt_one_iff]
      intro hh
      exact h2 (by rw [hh])
    have hm : ¬ mv.length < 1 := by
      rw [length_lt_one_iff]
      intro hh
      exact h4 (by rw [hh])
    refine ⟨{ id := some (genOid c.counter), title := tv, message := mv,
              created_at := now, start_date := sd, expiration_date := ev,
              author := username },
      { _id := .objectId (genOid c.counter), title := some tv, message := some mv,
        created_at := some now, start_date := sd, expiration_date := some ev,
        author := some username }, ?_⟩
    simp [add_announcement, parseCreate, ht, hm, parseAnnouncement, idToString]

/-- Witness for C8: an empty title is rejected and a fully valid body is
persisted. -/
theorem create_validates_required_fields_witness :
    (∃ e, add_announcement exColl 5 "alice" { exBody with title := some "" }
        = (.error (.validationError e), exColl))
    ∧ (∃ a doc, add_announcement exColl 5 "alice" exBody
        = (.ok a, { docs := exColl.docs ++ [doc], counter := exColl.counter + 1 })) :=
  ⟨(create_validates_required_fields exColl 5 "alice"
      { exBody with title := some "" }).1 (Or.inr (Or.inl rfl)),
   (create_validates_required_fields exColl 5 "alice" exBody).2 (by decide)⟩

/-- Claim C9: every announcement returned by create, list or update
carries its id as the string form of the stored id; create stringifies the
store-assigned native ObjectId. -/
theorem returned_ids_are_strings (c : Collection) (now : Nat) (username : String)
    (body : CreateBody) (s : String) (u : AnnouncementUpdate) :
    (∀ a c', add_announcement c now username body = (.ok a, c') →
      ∃ doc, c'.docs = c.docs ++ [doc] ∧ doc._id = .objectId (genOid c.counter)
        ∧ a.id = some (idToString doc._id))
    ∧ (∀ active l, list_announcements c now active = .ok l →
        List.Forall₂ (fun d a => a.id = some (idToString d._id))
          (if active then c.docs.filter (queryExpGt now) else c.docs) l)
    ∧ (∀ a c', update_announcement c s u = (.ok a, c') →
        ∃ d, d ∈ c'.docs ∧ a.id = some (idToString d._id)) := by
  refine ⟨?_, ?_, ?_⟩
  · intro a c' h
    cases hv : parseCreate body with
    | error e => simp [add_announcement, hv] at h
    | ok data =>
      simp [add_announcement, hv, parseAnnouncement, idToString] at h
      refine ⟨{ _id := .objectId (genOid c.counter), title := some data.title,
                message := some data.message, created_at := some now,
                start_date := data.start_date,
                expiration_date := some data.expiration_date,
                author := some username }, ?_, rfl, ?_⟩
      · rw [← h.2]
      · rw [← h.1]; rfl
  · intro active l h
    exact List.Forall₂.imp (fun {d} {a} hda => parse_stringify_id d a hda)
      (renderDocs_ok_forall2 _ l h)
  · intro a c' h
    obtain ⟨l1, d, l2, hds, hid, hds', hcnt, hparse⟩ := update_ok_inversion c s u a c' h
    refine ⟨applySet u d, ?_, ?_⟩
    · rw [hds']
      exact List.mem_append_right l1 (List.mem_cons_self _ l2)
    · exact parse_stringify_id _ _ hparse

/-- Witness for C9 at a concrete create call. -/
theorem returned_ids_are_strings_witness :
    ∃ doc, createdColl.docs = exColl.docs ++ [doc]
      ∧ doc._id = .objectId (genOid exColl.counter)
      ∧ createdA.id = some (idToString doc._id) :=
  (returned_ids_are_strings exColl 5 "alice" exBody "a1" titleOnlyUpd).1
    createdA createdColl (by decide)

/-- Claim C1: on a store whose documents all pass the response model,
list with active_only = true returns exactly the stored announcements whose
expiration_date is present and strictly greater than the call time, in
store order; with active_only = false it returns all of them; the Python
default for active_only is true. -/
theorem list_filters_by_expiration (c : Collection) (now : Nat)
    (h : ∀ d ∈ c.docs, exceptIsOk (parseAnnouncement (stringifyDocId d)) = true) :
    (∃ l, list_announcements c now true = .ok l ∧
        List.Forall₂ (fun d a => parseAnnouncement (stringifyDocId d) = .ok a)
          (c.docs.filter (queryExpGt now)) l)
    ∧ (∃ l, list_announcements c now false = .ok l ∧
        List.Forall₂ (fun d a => parseAnnouncement (stringifyDocId d) = .ok a)
          c.docs l)
    ∧ (∀ d : AnnouncementDoc, queryExpGt now d = true ↔
        ∃ e, d.expiration_date = some e ∧ now < e)
    ∧ list_announcements_default c now = list_announcements c now true := by
  refine ⟨?_, ?_, ?_, rfl⟩
  · obtain ⟨l, hl, hf⟩ := renderDocs_forall2 (c.docs.filter (queryExpGt now))
      (fun d hd => h d (List.mem_of_mem_filter hd))
    exact ⟨l, hl, hf⟩
  · obtain ⟨l, hl, hf⟩ := renderDocs_forall2 c.docs h
    exact ⟨l, hl, hf⟩
  · intro d
    cases hd : d.expiration_date with
    | none => simp [queryExpGt, hd]
    | some e0 => simp [queryExpGt, hd]

/-- Witness for C1 at a concrete two-document store, one active and one
expired at the call time. -/
theorem list_filters_by_expiration_witness :
    ∃ l, list_announcements exColl 300 true = .ok l ∧
      List.Forall₂ (fun d a => parseAnnouncement (stringifyDocId d) = .ok a)
        (exColl.docs.filter (queryExpGt 300)) l :=
  (list_filters_by_expiration exColl 300 (by decide)).1

end Announcements
